import Mathlib

/-!
# Shallow embedding of the gravity-and-orbits model core

This file embeds the model layer of the gravity-and-orbits simulation:
the rewindable value containers, bodies, the per-scene physics engine and
clock, the scene-level rewind/reset/save state machine
(`src/js/common/GravityAndOrbitsScene.js`), and the top-level model
(`GravityAndOrbitsModel.step` / `reset`).  Real-valued physical quantities
are embedded as rationals; the gravitational force formula (which requires
a square root) is carried as an explicit function parameter of each scene,
since no claim under verification depends on its numeric value.

Files `RewindableProperty.js`, `Body.js`, `GravityAndOrbitsPhysicsEngine.js`
and `GravityAndOrbitsClock.js` are not part of the provided sources; the
corresponding definitions are modelled from the specification and are marked
as such in their doc comments.
-/

namespace GravityAndOrbits

/-- 2D vector with rational components, embedding `dot/Vector2`. -/
structure Vector2 where
  x : ℚ
  y : ℚ
  deriving DecidableEq, Repr

namespace Vector2

/-- The zero vector. -/
def zero : Vector2 := ⟨0, 0⟩

/-- Componentwise vector addition. -/
def add (a b : Vector2) : Vector2 := ⟨a.x + b.x, a.y + b.y⟩

/-- Scalar multiplication. -/
def smul (c : ℚ) (a : Vector2) : Vector2 := ⟨c * a.x, c * a.y⟩

/-- Squared distance between two points; used for collision tests
(`distance < r₁ + r₂` is tested as `distance² < (r₁ + r₂)²`). -/
def distanceSquared (a b : Vector2) : ℚ := (a.x - b.x) ^ 2 + (a.y - b.y) ^ 2

end Vector2

/-- Modelled from the spec: `RewindableProperty.js` is absent from the
sources (only `RewindablePropertyIO.js` is present).  A rewindable value
holds a current `value`, a `rewindValue` (the last explicitly saved value,
used by rewind) and the construction-time `initialValue` (used by full
reset). -/
structure RewindableProperty (α : Type) where
  value : α
  rewindValue : α
  initialValue : α
  deriving DecidableEq, Repr

namespace RewindableProperty

/-- Construction: all three slots start at the construction-time value. -/
def ofValue {α : Type} (a : α) : RewindableProperty α := ⟨a, a, a⟩

/-- Modelled from the spec: `set(v)` changes only the current value; the
rewind point is decoupled and changes only on an explicit `save()`. -/
def set {α : Type} (p : RewindableProperty α) (v : α) : RewindableProperty α :=
  { p with value := v }

/-- Modelled from the spec: `save()` sets `rewindValue := value`. -/
def save {α : Type} (p : RewindableProperty α) : RewindableProperty α :=
  { p with rewindValue := p.value }

/-- Modelled from the spec: `rewind()` restores `value` to `rewindValue`
without changing `rewindValue`. -/
def rewind {α : Type} (p : RewindableProperty α) : RewindableProperty α :=
  { p with value := p.rewindValue }

/-- Modelled from the spec: `reset()` restores `value` to `initialValue`
and also re-anchors `rewindValue` at `initialValue`. -/
def reset {α : Type} (p : RewindableProperty α) : RewindableProperty α :=
  { p with value := p.initialValue, rewindValue := p.initialValue }

end RewindableProperty

/-- Modelled from the spec: `Body.js` is absent from the sources.  A body
owns rewindable mass, position and velocity, a (display) force vector, a
radius, a `collided` flag, a ticks-since-explosion counter and a bounded
trajectory path. -/
structure Body where
  massProperty : RewindableProperty ℚ
  positionProperty : RewindableProperty Vector2
  velocityProperty : RewindableProperty Vector2
  forceProperty : Vector2
  radius : ℚ
  isCollided : Bool
  clockTicksSinceExplosion : ℕ
  path : List Vector2
  deriving DecidableEq, Repr

/-- Construction-time data for one body, embedding `BodyConfiguration`. -/
structure BodyConfiguration where
  mass : ℚ
  position : Vector2
  velocity : Vector2
  radius : ℚ
  deriving DecidableEq, Repr

namespace Body

/-- Build a body from its configuration: every rewindable slot starts at
the configured value, no collision, empty path. -/
def ofConfiguration (c : BodyConfiguration) : Body where
  massProperty := RewindableProperty.ofValue c.mass
  positionProperty := RewindableProperty.ofValue c.position
  velocityProperty := RewindableProperty.ofValue c.velocity
  forceProperty := Vector2.zero
  radius := c.radius
  isCollided := false
  clockTicksSinceExplosion := 0
  path := []

/-- Modelled from the spec: `saveBodyState` anchors the current value of
every rewindable quantity as the rewind point (invoked by
`GravityAndOrbitsScene.saveState`). -/
def saveBodyState (b : Body) : Body :=
  { b with
    massProperty := b.massProperty.save
    positionProperty := b.positionProperty.save
    velocityProperty := b.velocityProperty.save }

/-- Modelled from the spec: `Body.rewind` restores every rewindable
quantity to its last-saved rewind point (invoked by
`GravityAndOrbitsScene.rewind`). -/
def rewindBody (b : Body) : Body :=
  { b with
    massProperty := b.massProperty.rewind
    positionProperty := b.positionProperty.rewind
    velocityProperty := b.velocityProperty.rewind }

/-- Modelled from the spec: `Body.resetAll` restores every rewindable
quantity to the construction-time value, clears the `collided` flag and
the explosion counter, and empties the path (invoked via
`physicsEngine.resetBodies` / `resetAll`). -/
def resetAll (b : Body) : Body :=
  { b with
    massProperty := b.massProperty.reset
    positionProperty := b.positionProperty.reset
    velocityProperty := b.velocityProperty.reset
    isCollided := false
    clockTicksSinceExplosion := 0
    path := [] }

/-- The current (kinematic) values of the three rewindable quantities. -/
def currentValues (b : Body) : ℚ × Vector2 × Vector2 :=
  (b.massProperty.value, b.positionProperty.value, b.velocityProperty.value)

/-- The rewind-point values of the three rewindable quantities. -/
def rewindValues (b : Body) : ℚ × Vector2 × Vector2 :=
  (b.massProperty.rewindValue, b.positionProperty.rewindValue, b.velocityProperty.rewindValue)

/-- The construction-time values of the three rewindable quantities. -/
def initialValues (b : Body) : ℚ × Vector2 × Vector2 :=
  (b.massProperty.initialValue, b.positionProperty.initialValue, b.velocityProperty.initialValue)

/-- The data a body contributes to pairwise force computation: current
mass, current position, and whether it is collided (collided bodies are
excluded from all force computation). -/
def gravityData (b : Body) : ℚ × Vector2 × Bool :=
  (b.massProperty.value, b.positionProperty.value, b.isCollided)

/-- The data a body contributes to collision detection: current position
and radius. -/
def collisionData (b : Body) : Vector2 × ℚ :=
  (b.positionProperty.value, b.radius)

end Body

/-- The gravitational pairwise force formula `(m₁, p₁, m₂, p₂) ↦ F on 1`.
The source's formula `G·m₁·m₂/r²` directed along the center line involves a
real square root, so the embedding carries it as an explicit parameter; no
verified claim depends on its numeric value. -/
def ForceFn : Type := ℚ → Vector2 → ℚ → Vector2 → Vector2

/-- `mapIdxFrom g n l` maps `g` over `l` passing each element its index,
counting from `n`; the index-aware map used by the engine's per-body loops. -/
def mapIdxFrom {α : Type} (g : ℕ → α → α) : ℕ → List α → List α
  | _, [] => []
  | n, a :: l => g n a :: mapIdxFrom g (n + 1) l

/-- Modelled from the spec: the net force on the body with index `i` and
gravity data `d` is the sum, over every other non-collided body, of the
pairwise gravitational force; a collided body receives zero force. -/
def netForceData (f : ForceFn) (ds : List (ℚ × Vector2 × Bool)) (i : ℕ)
    (d : ℚ × Vector2 × Bool) : Vector2 :=
  if d.2.2 then Vector2.zero
  else
    ((ds.enum.filter (fun q => q.1 != i && !q.2.2.2)).map
      (fun q => f d.1 d.2.1 q.2.1 q.2.2.1)).foldr Vector2.add Vector2.zero

/-- Modelled from the spec: `updateForceVectors` recomputes the force
vector of every body from the current masses/positions without advancing
time (used after rewind/reset and at the start of each physics sub-step). -/
def updateForceVectors (f : ForceFn) (bodies : List Body) : List Body :=
  mapIdxFrom
    (fun i b =>
      { b with forceProperty := netForceData f (bodies.map Body.gravityData) i b.gravityData })
    0 bodies

/-- Modelled from the spec: symplectic sub-step for one body — acceleration
`F/m` (zero when gravity is disabled), then `v += a·dt`, then `p += v·dt`
with the new velocity; collided bodies are excluded from integration. -/
def integrateBody (gravityEnabled : Bool) (dt : ℚ) (b : Body) : Body :=
  if b.isCollided then b
  else
    let a := if gravityEnabled then Vector2.smul (1 / b.massProperty.value) b.forceProperty
             else Vector2.zero
    let v := Vector2.add b.velocityProperty.value (Vector2.smul dt a)
    let p := Vector2.add b.positionProperty.value (Vector2.smul dt v)
    { b with velocityProperty := b.velocityProperty.set v
             positionProperty := b.positionProperty.set p }

/-- The body at index `i` with collision data `d` touches some other body:
the distance between centers is below the sum of the radii (tested on
squares to stay in rational arithmetic). -/
def collidesWithAnyData (ds : List (Vector2 × ℚ)) (i : ℕ) (d : Vector2 × ℚ) : Bool :=
  ds.enum.any fun q =>
    q.1 != i && decide (Vector2.distanceSquared d.1 q.2.1 < (d.2 + q.2.2) ^ 2)

/-- Modelled from the spec: the collision pass marks every body that
touches another body as collided and zeroes its velocity. -/
def applyCollisions (bodies : List Body) : List Body :=
  mapIdxFrom
    (fun i b =>
      if collidesWithAnyData (bodies.map Body.collisionData) i b.collisionData then
        { b with isCollided := true
                 velocityProperty := b.velocityProperty.set Vector2.zero }
      else b)
    0 bodies

/-- Modelled from the spec: append the current position to a non-collided
body's path, evicting the oldest entry once the path exceeds its capacity. -/
def Body.addPathPoint (maxPathLength : ℤ) (b : Body) : Body :=
  if b.isCollided then b
  else
    let p := b.path ++ [b.positionProperty.value]
    { b with path := if maxPathLength < (p.length : ℤ) then p.drop 1 else p }

/-- Modelled from the spec: one physics sub-step — recompute forces,
integrate all non-collided bodies, run the collision pass, append path
points. -/
def physicsSubStep (gravityEnabled : Bool) (f : ForceFn) (dt : ℚ) (maxPathLength : ℤ)
    (bodies : List Body) : List Body :=
  (applyCollisions ((updateForceVectors f bodies).map (integrateBody gravityEnabled dt))).map
    (Body.addPathPoint maxPathLength)

/-- Clock speed setting (fast/normal/slow), embedding `TimeSpeed`. -/
inductive TimeSpeed where
  | fast
  | normal
  | slow
  deriving DecidableEq, Repr

/-- Modelled from the spec: the wall-dt multiplier for each speed setting;
the spec fixes the three states but not the numeric multipliers. -/
def TimeSpeed.multiplier : TimeSpeed → ℚ
  | .fast => 7 / 4
  | .normal => 1
  | .slow => 1 / 4

/-- Modelled from the spec: `GravityAndOrbitsClock.js` is absent from the
sources.  The clock owns the running flag, the speed setting, the scene's
configured per-tick `dt` and the cumulative simulation time. -/
structure GravityAndOrbitsClock where
  running : Bool
  speed : TimeSpeed
  baseDt : ℚ
  simulationTime : ℚ
  deriving DecidableEq, Repr

namespace GravityAndOrbitsClock

/-- `setRunning` transitions between stopped and running. -/
def setRunning (c : GravityAndOrbitsClock) (b : Bool) : GravityAndOrbitsClock :=
  { c with running := b }

/-- `setSimulationTime(t)` explicitly sets the clock to a specific time. -/
def setSimulationTime (c : GravityAndOrbitsClock) (t : ℚ) : GravityAndOrbitsClock :=
  { c with simulationTime := t }

/-- `resetSimulationTime` zeroes cumulative time without touching bodies. -/
def resetSimulationTime (c : GravityAndOrbitsClock) : GravityAndOrbitsClock :=
  c.setSimulationTime 0

/-- Modelled from the spec: the simulation-time advance for one tick scales
the wall-clock delta by the active speed multiplier and the configured
per-tick `dt`. -/
def scaledDt (c : GravityAndOrbitsClock) (wallDt : ℚ) : ℚ :=
  wallDt * c.speed.multiplier * c.baseDt

end GravityAndOrbitsClock

/-- One selectable preset configuration, embedding
`src/js/common/GravityAndOrbitsScene.js`: a body set, a clock, the
scene-local flags, and the scene's force-formula parameter.  The
`rewinding` field embeds the `rewindingProperty` the scene references, and
`initialActive` the construction-time value restored by
`activeProperty.reset()`. -/
@[ext]
structure GravityAndOrbitsScene where
  bodies : List Body
  clock : GravityAndOrbitsClock
  gravityForce : ForceFn
  dt : ℚ
  defaultOrbitalPeriod : ℚ
  active : Bool
  initialActive : Bool
  deviatedFromDefaults : Bool
  rewinding : Bool
  zoomLevel : ℚ

namespace GravityAndOrbitsScene

/-- Scene construction: bodies start at their configured values, the flags
at their defaults, and (per the `Property.multilink` in the constructor)
the clock runs exactly when the play button is pressed and the scene is
active. -/
def ofConfigurations (cfgs : List BodyConfiguration) (f : ForceFn) (dt period : ℚ)
    (isPlaying act : Bool) (speed : TimeSpeed) : GravityAndOrbitsScene where
  bodies := cfgs.map Body.ofConfiguration
  clock := { running := isPlaying && act, speed := speed, baseDt := dt, simulationTime := 0 }
  gravityForce := f
  dt := dt
  defaultOrbitalPeriod := period
  active := act
  initialActive := act
  deviatedFromDefaults := false
  rewinding := false
  zoomLevel := 1

/-- `getMaxPathLength` (from `GravityAndOrbitsMode.getMaxPathLength`):
enough path points for 1.5 default orbital periods. -/
def getMaxPathLength (s : GravityAndOrbitsScene) : ℤ :=
  Int.ceil ((3 / 2 : ℚ) * s.defaultOrbitalPeriod / s.dt)

/-- Set the scene's clock to a specific simulation time. -/
def setSimulationTime (s : GravityAndOrbitsScene) (t : ℚ) : GravityAndOrbitsScene :=
  { s with clock := s.clock.setSimulationTime t }

/-- Recompute every body's displayed force vector
(`physicsEngine.updateForceVectors`). -/
def updForceVectors (s : GravityAndOrbitsScene) : GravityAndOrbitsScene :=
  { s with bodies := updateForceVectors s.gravityForce s.bodies }

/-- `saveState`: anchor the current value of every body's rewindable
quantities as the rewind point. -/
def saveState (s : GravityAndOrbitsScene) : GravityAndOrbitsScene :=
  { s with bodies := s.bodies.map Body.saveBodyState }

/-- First phase of `rewind()`: raise the `rewinding` flag. -/
def rewindStart (s : GravityAndOrbitsScene) : GravityAndOrbitsScene :=
  { s with rewinding := true }

/-- Middle phase of `rewind()`: reset simulation time to 0 and restore
every body to its last-saved rewind point. -/
def rewindRestore (s : GravityAndOrbitsScene) : GravityAndOrbitsScene :=
  { s.setSimulationTime 0 with bodies := s.bodies.map Body.rewindBody }

/-- Last phase of `rewind()`: clear the `rewinding` flag. -/
def rewindFinish (s : GravityAndOrbitsScene) : GravityAndOrbitsScene :=
  { s with rewinding := false }

/-- `rewind()`: raise the `rewinding` flag, reset simulation time to 0,
restore every body to its rewind point, recompute force vectors, clear the
flag. -/
def rewind (s : GravityAndOrbitsScene) : GravityAndOrbitsScene :=
  rewindFinish (updForceVectors (rewindRestore (rewindStart s)))

/-- Modelled from the spec: `physicsEngine.resetBodies` (the engine file is
absent from the sources) restores all bodies' rewindable values to the
construction-time values and clears the collision state, then force vectors
are recomputed so the display is correct without a time step. -/
def resetBodies (s : GravityAndOrbitsScene) : GravityAndOrbitsScene :=
  updForceVectors { s with bodies := s.bodies.map Body.resetAll }

/-- `resetScene()` ("reset this configuration"): reset the bodies, clear
`deviatedFromDefaults`, set simulation time to 0. -/
def resetScene (s : GravityAndOrbitsScene) : GravityAndOrbitsScene :=
  setSimulationTime { s.resetBodies with deviatedFromDefaults := false } 0

/-- Scene-level `reset()` (invoked by the global reset-all): reset the
`active` flag, `deviatedFromDefaults`, the zoom level, the simulation time
and all bodies. -/
def reset (s : GravityAndOrbitsScene) : GravityAndOrbitsScene :=
  { s.resetBodies with
    active := s.initialActive
    deviatedFromDefaults := false
    zoomLevel := 1
    clock := s.clock.resetSimulationTime }

/-- The listener `addBody` installs on `userModifiedVelocityEmitter`: mark
the scene as deviated from defaults, and — only while the simulation is
paused — save the state.  The boolean in the result records whether
`saveState` was invoked. -/
def userModifiedVelocityListener (s : GravityAndOrbitsScene) (isPlaying : Bool) :
    GravityAndOrbitsScene × Bool :=
  let s1 := { s with deviatedFromDefaults := true }
  if isPlaying then (s1, false) else (s1.saveState, true)

/-- The scene state after the user-modified-velocity notification fires. -/
def onUserModifiedVelocity (s : GravityAndOrbitsScene) (isPlaying : Bool) :
    GravityAndOrbitsScene :=
  (s.userModifiedVelocityListener isPlaying).1

/-- Modelled from the spec: the clock tick (`GravityAndOrbitsClock.js` is
absent from the sources).  `step(wallDt)` is a no-op unless the clock is
running; when running it advances cumulative simulation time by the scaled
delta and invokes the physics engine with the fixed per-tick `dt`. -/
def stepClock (s : GravityAndOrbitsScene) (gravityEnabled : Bool) (wallDt : ℚ) :
    GravityAndOrbitsScene :=
  if s.clock.running then
    { s with
      clock := { s.clock with simulationTime := s.clock.simulationTime + s.clock.scaledDt wallDt }
      bodies := physicsSubStep gravityEnabled s.gravityForce s.clock.baseDt s.getMaxPathLength
        s.bodies }
  else s

/-- Apply `g` to the body at index `i` (a user edit of one body's value). -/
def setBodyValue (s : GravityAndOrbitsScene) (i : ℕ) (g : Body → Body) :
    GravityAndOrbitsScene :=
  { s with bodies := mapIdxFrom (fun j b => if j = i then g b else b) 0 s.bodies }

end GravityAndOrbitsScene

/-- The top-level model (`GravityAndOrbitsModel` in the sources): the scene
list, the selected scene (`sceneProperty`, embedded as an index), and the
properties shared across all scenes. -/
structure GravityAndOrbitsModel where
  scenes : List GravityAndOrbitsScene
  selectedSceneIndex : ℕ
  showGravityForce : Bool
  showVelocity : Bool
  showPath : Bool
  showGrid : Bool
  showMass : Bool
  showMeasuringTape : Bool
  isPlaying : Bool
  gravityEnabled : Bool
  timeSpeed : TimeSpeed

namespace GravityAndOrbitsModel

/-- `GravityAndOrbitsModel.step(dt)`: clamp `dt` to at most 1, advance the
explosion counter of every collided body of the selected scene, and — only
when playing — step the selected scene's clock with the clamped delta. -/
def step (m : GravityAndOrbitsModel) (dt : ℚ) : GravityAndOrbitsModel :=
  let dt := min 1 dt
  { m with
    scenes :=
      mapIdxFrom
        (fun i s =>
          if i = m.selectedSceneIndex then
            let s :=
              { s with
                bodies := s.bodies.map fun b =>
                  if b.isCollided then
                    { b with clockTicksSinceExplosion := b.clockTicksSinceExplosion + 1 }
                  else b }
            if m.isPlaying then s.stepClock m.gravityEnabled dt else s
          else s)
        0 m.scenes }

/-- Global `reset()` (reset-all): every shared property back to its initial
value (`false` for the display toggles and `isPlaying`, `normal` speed,
gravity enabled), the scene selection back to the first scene, and every
scene reset. -/
def reset (m : GravityAndOrbitsModel) : GravityAndOrbitsModel :=
  { m with
    showGravityForce := false
    showPath := false
    showGrid := false
    showVelocity := false
    showMass := false
    isPlaying := false
    timeSpeed := TimeSpeed.normal
    showMeasuringTape := false
    gravityEnabled := true
    selectedSceneIndex := 0
    scenes := m.scenes.map GravityAndOrbitsScene.reset }

end GravityAndOrbitsModel

/-- One scene-level operation from the public mutation surface: a user edit
of one body's mass/position/velocity, a clock tick, one of the three
checkpoint operations, or a user-modified-velocity notification. -/
inductive SceneOp where
  | setMass (i : ℕ) (m : ℚ)
  | setPosition (i : ℕ) (p : Vector2)
  | setVelocity (i : ℕ) (v : Vector2)
  | stepClock (gravityEnabled : Bool) (wallDt : ℚ)
  | saveState
  | rewind
  | resetScene
  | userModifiedVelocity (isPlaying : Bool)
  deriving DecidableEq, Repr

namespace SceneOp

/-- Whether the operation moves the bodies' rewind points: `saveState`
anchors them at the current values, `resetScene` re-anchors them at the
construction-time values, and the velocity listener saves while paused. -/
def movesRewindPoint : SceneOp → Bool
  | .saveState => true
  | .resetScene => true
  | .userModifiedVelocity isPlaying => !isPlaying
  | _ => false

/-- Run one operation on a scene. -/
def apply : SceneOp → GravityAndOrbitsScene → GravityAndOrbitsScene
  | .setMass i m, s => s.setBodyValue i fun b => { b with massProperty := b.massProperty.set m }
  | .setPosition i p, s =>
      s.setBodyValue i fun b => { b with positionProperty := b.positionProperty.set p }
  | .setVelocity i v, s =>
      s.setBodyValue i fun b => { b with velocityProperty := b.velocityProperty.set v }
  | .stepClock ge wallDt, s => s.stepClock ge wallDt
  | .saveState, s => s.saveState
  | .rewind, s => s.rewind
  | .resetScene, s => s.resetScene
  | .userModifiedVelocity isPlaying, s => s.onUserModifiedVelocity isPlaying

end SceneOp

/-- Run a list of operations on a scene, first operation first. -/
def applyOps (ops : List SceneOp) (s : GravityAndOrbitsScene) : GravityAndOrbitsScene :=
  ops.foldl (fun s op => op.apply s) s

/-! ## Concrete instances used by the witnesses -/

/-- A concrete executable pairwise-force function standing in for the
gravitational formula (whose exact value no verified claim depends on). -/
def demoForce : ForceFn := fun m1 p1 m2 p2 =>
  Vector2.smul (m1 * m2) (Vector2.add p2 (Vector2.smul (-1) p1))

/-- A small two-body configuration list. -/
def demoConfigurations : List BodyConfiguration :=
  [{ mass := 100, position := ⟨0, 0⟩, velocity := ⟨0, 0⟩, radius := 5 },
   { mass := 1, position := ⟨10, 0⟩, velocity := ⟨0, 3⟩, radius := 1 }]

/-- A concrete scene over `demoConfigurations`, paused and active. -/
def demoScene : GravityAndOrbitsScene :=
  GravityAndOrbitsScene.ofConfigurations demoConfigurations demoForce (1 / 10) 12 false true
    TimeSpeed.normal

/-- A second concrete scene, inactive (used as the non-selected scene). -/
def demoInactiveScene : GravityAndOrbitsScene :=
  GravityAndOrbitsScene.ofConfigurations demoConfigurations demoForce (1 / 5) 20 false false
    TimeSpeed.normal

/-- A concrete two-scene model with the first scene selected. -/
def demoModel : GravityAndOrbitsModel where
  scenes := [demoScene, demoInactiveScene]
  selectedSceneIndex := 0
  showGravityForce := false
  showVelocity := false
  showPath := false
  showGrid := false
  showMass := false
  showMeasuringTape := false
  isPlaying := false
  gravityEnabled := true
  timeSpeed := TimeSpeed.normal

/-- A concrete mutation sequence that never moves the rewind points. -/
def demoOps : List SceneOp :=
  [SceneOp.setPosition 1 ⟨20, 20⟩, SceneOp.stepClock true (1 / 2)]

/-- A concrete scene whose path capacity `ceil(1.5·12/9) = 2` is exactly
matched by `demoFullBody`'s path length. -/
def demoPathScene : GravityAndOrbitsScene :=
  GravityAndOrbitsScene.ofConfigurations demoConfigurations demoForce 9 12 false true
    TimeSpeed.normal

/-- A concrete non-collided body whose path already holds 2 points. -/
def demoFullBody : Body :=
  { Body.ofConfiguration { mass := 1, position := ⟨7, 8⟩, velocity := ⟨0, 0⟩, radius := 1 } with
    path := [⟨1, 2⟩, ⟨3, 4⟩] }

/-! ## Lemmas about the index-aware map -/

theorem mapIdxFrom_length {α : Type} (g : ℕ → α → α) (n : ℕ) (l : List α) :
    (mapIdxFrom g n l).length = l.length := by
  induction l generalizing n with
  | nil => rfl
  | cons a l ih => simp [mapIdxFrom, ih]

theorem mapIdxFrom_map {α β : Type} (g : ℕ → α → α) (proj : α → β)
    (h : ∀ i a, proj (g i a) = proj a) (n : ℕ) (l : List α) :
    (mapIdxFrom g n l).map proj = l.map proj := by
  induction l generalizing n with
  | nil => rfl
  | cons a l ih => simp [mapIdxFrom, h, ih]

theorem mapIdxFrom_getElem? {α : Type} (g : ℕ → α → α) (n i : ℕ) (l : List α) :
    (mapIdxFrom g n l)[i]? = (l[i]?).map (g (n + i)) := by
  induction l generalizing n i with
  | nil => simp [mapIdxFrom]
  | cons a l ih =>
    cases i with
    | zero => simp [mapIdxFrom]
    | succ i =>
      simp only [mapIdxFrom, List.getElem?_cons_succ, ih]
      rw [Nat.add_right_comm, Nat.add_assoc]

theorem mapIdxFrom_comp {α : Type} (g h : ℕ → α → α) (n : ℕ) (l : List α) :
    mapIdxFrom g n (mapIdxFrom h n l) = mapIdxFrom (fun i a => g i (h i a)) n l := by
  induction l generalizing n with
  | nil => rfl
  | cons a l ih => simp [mapIdxFrom, ih]

theorem mapIdxFrom_congr {α : Type} (g h : ℕ → α → α) (hgh : ∀ i a, g i a = h i a)
    (n : ℕ) (l : List α) : mapIdxFrom g n l = mapIdxFrom h n l := by
  induction l generalizing n with
  | nil => rfl
  | cons a l ih => simp [mapIdxFrom, hgh, ih]

theorem forall_mem_mapIdxFrom {α : Type} (P : α → Prop) (g : ℕ → α → α)
    (hP : ∀ i a, P a → P (g i a)) (n : ℕ) (l : List α) (h : ∀ a ∈ l, P a) :
    ∀ b ∈ mapIdxFrom g n l, P b := by
  induction l generalizing n with
  | nil => intro b hb; cases hb
  | cons a l ih =>
    intro b hb
    rw [mapIdxFrom, List.mem_cons] at hb
    rcases hb with rfl | hb
    · exact hP n a (h a (List.mem_cons_self a l))
    · exact ih (n + 1) (fun x hx => h x (List.mem_cons_of_mem a hx)) b hb

/-! ## Projection facts for the body operations -/

theorem initialValues_saveBodyState (b : Body) :
    (b.saveBodyState).initialValues = b.initialValues := rfl

theorem currentValues_saveBodyState (b : Body) :
    (b.saveBodyState).currentValues = b.currentValues := rfl

theorem rewindValues_saveBodyState (b : Body) :
    (b.saveBodyState).rewindValues = b.currentValues := rfl

theorem initialValues_rewindBody (b : Body) :
    (b.rewindBody).initialValues = b.initialValues := rfl

theorem currentValues_rewindBody (b : Body) :
    (b.rewindBody).currentValues = b.rewindValues := rfl

theorem rewindValues_rewindBody (b : Body) :
    (b.rewindBody).rewindValues = b.rewindValues := rfl

theorem initialValues_resetAll (b : Body) :
    (b.resetAll).initialValues = b.initialValues := rfl

theorem currentValues_resetAll (b : Body) :
    (b.resetAll).currentValues = b.initialValues := rfl

theorem isCollided_resetAll (b : Body) : (b.resetAll).isCollided = false := rfl

theorem initialValues_integrateBody (gravityEnabled : Bool) (dt : ℚ) (b : Body) :
    (integrateBody gravityEnabled dt b).initialValues = b.initialValues := by
  unfold integrateBody; split <;> rfl

theorem rewindValues_integrateBody (gravityEnabled : Bool) (dt : ℚ) (b : Body) :
    (integrateBody gravityEnabled dt b).rewindValues = b.rewindValues := by
  unfold integrateBody; split <;> rfl

theorem clockTicks_integrateBody (gravityEnabled : Bool) (dt : ℚ) (b : Body) :
    (integrateBody gravityEnabled dt b).clockTicksSinceExplosion =
      b.clockTicksSinceExplosion := by
  unfold integrateBody; split <;> rfl

theorem initialValues_addPathPoint (maxPathLength : ℤ) (b : Body) :
    (b.addPathPoint maxPathLength).initialValues = b.initialValues := by
  unfold Body.addPathPoint; split <;> rfl

theorem rewindValues_addPathPoint (maxPathLength : ℤ) (b : Body) :
    (b.addPathPoint maxPathLength).rewindValues = b.rewindValues := by
  unfold Body.addPathPoint; split <;> rfl

theorem clockTicks_addPathPoint (maxPathLength : ℤ) (b : Body) :
    (b.addPathPoint maxPathLength).clockTicksSinceExplosion = b.clockTicksSinceExplosion := by
  unfold Body.addPathPoint; split <;> rfl

theorem path_rewindBody (b : Body) : (b.rewindBody).path = b.path := rfl

theorem clockTicks_rewindBody (b : Body) :
    (b.rewindBody).clockTicksSinceExplosion = b.clockTicksSinceExplosion := rfl

/-! ## Projection facts for the list-level engine passes -/

theorem map_map_proj {α β : Type} (g : α → α) (proj : α → β) (h : ∀ a, proj (g a) = proj a)
    (l : List α) : (l.map g).map proj = l.map proj := by
  rw [List.map_map]
  exact congrArg (fun f => List.map f l) (funext h)

theorem map_comp_eq {α β γ : Type} (g : α → β) (proj : β → γ) (p : α → γ)
    (h : ∀ a, proj (g a) = p a) (l : List α) : (l.map g).map proj = l.map p := by
  rw [List.map_map]
  exact congrArg (fun f => List.map f l) (funext h)

theorem initialValues_updateForceVectors (f : ForceFn) (l : List Body) :
    (updateForceVectors f l).map Body.initialValues = l.map Body.initialValues := by
  unfold updateForceVectors
  apply mapIdxFrom_map
  intro i a
  rfl

theorem rewindValues_updateForceVectors (f : ForceFn) (l : List Body) :
    (updateForceVectors f l).map Body.rewindValues = l.map Body.rewindValues := by
  unfold updateForceVectors
  apply mapIdxFrom_map
  intro i a
  rfl

theorem currentValues_updateForceVectors (f : ForceFn) (l : List Body) :
    (updateForceVectors f l).map Body.currentValues = l.map Body.currentValues := by
  unfold updateForceVectors
  apply mapIdxFrom_map
  intro i a
  rfl

theorem isCollided_updateForceVectors (f : ForceFn) (l : List Body) :
    (updateForceVectors f l).map Body.isCollided = l.map Body.isCollided := by
  unfold updateForceVectors
  apply mapIdxFrom_map
  intro i a
  rfl

theorem clockTicks_updateForceVectors (f : ForceFn) (l : List Body) :
    (updateForceVectors f l).map Body.clockTicksSinceExplosion =
      l.map Body.clockTicksSinceExplosion := by
  unfold updateForceVectors
  apply mapIdxFrom_map
  intro i a
  rfl

theorem path_updateForceVectors (f : ForceFn) (l : List Body) :
    (updateForceVectors f l).map Body.path = l.map Body.path := by
  unfold updateForceVectors
  apply mapIdxFrom_map
  intro i a
  rfl

theorem gravityData_updateForceVectors (f : ForceFn) (l : List Body) :
    (updateForceVectors f l).map Body.gravityData = l.map Body.gravityData := by
  unfold updateForceVectors
  apply mapIdxFrom_map
  intro i a
  rfl

theorem initialValues_applyCollisions (l : List Body) :
    (applyCollisions l).map Body.initialValues = l.map Body.initialValues := by
  unfold applyCollisions
  apply mapIdxFrom_map
  intro i a
  split <;> rfl

theorem rewindValues_applyCollisions (l : List Body) :
    (applyCollisions l).map Body.rewindValues = l.map Body.rewindValues := by
  unfold applyCollisions
  apply mapIdxFrom_map
  intro i a
  split <;> rfl

theorem clockTicks_applyCollisions (l : List Body) :
    (applyCollisions l).map Body.clockTicksSinceExplosion =
      l.map Body.clockTicksSinceExplosion := by
  unfold applyCollisions
  apply mapIdxFrom_map
  intro i a
  split <;> rfl

theorem initialValues_physicsSubStep (ge : Bool) (f : ForceFn) (dt : ℚ) (cap : ℤ)
    (l : List Body) :
    (physicsSubStep ge f dt cap l).map Body.initialValues = l.map Body.initialValues := by
  unfold physicsSubStep
  rw [map_map_proj _ _ (initialValues_addPathPoint cap), initialValues_applyCollisions,
    map_map_proj _ _ (initialValues_integrateBody ge dt), initialValues_updateForceVectors]

theorem rewindValues_physicsSubStep (ge : Bool) (f : ForceFn) (dt : ℚ) (cap : ℤ)
    (l : List Body) :
    (physicsSubStep ge f dt cap l).map Body.rewindValues = l.map Body.rewindValues := by
  unfold physicsSubStep
  rw [map_map_proj _ _ (rewindValues_addPathPoint cap), rewindValues_applyCollisions,
    map_map_proj _ _ (rewindValues_integrateBody ge dt), rewindValues_updateForceVectors]

theorem clockTicks_physicsSubStep (ge : Bool) (f : ForceFn) (dt : ℚ) (cap : ℤ)
    (l : List Body) :
    (physicsSubStep ge f dt cap l).map Body.clockTicksSinceExplosion =
      l.map Body.clockTicksSinceExplosion := by
  unfold physicsSubStep
  rw [map_map_proj _ _ (clockTicks_addPathPoint cap), clockTicks_applyCollisions,
    map_map_proj _ _ (clockTicks_integrateBody ge dt), clockTicks_updateForceVectors]

/-! ## Scene-level unfolding facts -/

namespace GravityAndOrbitsScene

theorem rewind_bodies (s : GravityAndOrbitsScene) :
    (s.rewind).bodies = updateForceVectors s.gravityForce (s.bodies.map Body.rewindBody) := rfl

theorem rewind_clock (s : GravityAndOrbitsScene) :
    (s.rewind).clock = s.clock.setSimulationTime 0 := rfl

theorem rewind_map_currentValues (s : GravityAndOrbitsScene) :
    (s.rewind).bodies.map Body.currentValues = s.bodies.map Body.rewindValues := by
  rw [rewind_bodies, currentValues_updateForceVectors,
    map_comp_eq _ _ _ currentValues_rewindBody]

theorem rewind_map_rewindValues (s : GravityAndOrbitsScene) :
    (s.rewind).bodies.map Body.rewindValues = s.bodies.map Body.rewindValues := by
  rw [rewind_bodies, rewindValues_updateForceVectors,
    map_comp_eq _ _ _ rewindValues_rewindBody]

theorem rewind_map_path (s : GravityAndOrbitsScene) :
    (s.rewind).bodies.map Body.path = s.bodies.map Body.path := by
  rw [rewind_bodies, path_updateForceVectors, map_comp_eq _ _ _ path_rewindBody]

theorem rewind_map_clockTicks (s : GravityAndOrbitsScene) :
    (s.rewind).bodies.map Body.clockTicksSinceExplosion =
      s.bodies.map Body.clockTicksSinceExplosion := by
  rw [rewind_bodies, clockTicks_updateForceVectors, map_comp_eq _ _ _ clockTicks_rewindBody]

theorem saveState_map_rewindValues (s : GravityAndOrbitsScene) :
    (s.saveState).bodies.map Body.rewindValues = s.bodies.map Body.currentValues :=
  map_comp_eq _ _ _ rewindValues_saveBodyState s.bodies

theorem saveState_map_currentValues (s : GravityAndOrbitsScene) :
    (s.saveState).bodies.map Body.currentValues = s.bodies.map Body.currentValues :=
  map_comp_eq _ _ _ currentValues_saveBodyState s.bodies

end GravityAndOrbitsScene

namespace GravityAndOrbitsScene

theorem resetBodies_bodies (s : GravityAndOrbitsScene) :
    (s.resetBodies).bodies = updateForceVectors s.gravityForce (s.bodies.map Body.resetAll) :=
  rfl

theorem resetScene_map_currentValues (s : GravityAndOrbitsScene) :
    (s.resetScene).bodies.map Body.currentValues = s.bodies.map Body.initialValues := by
  show ((s.resetBodies).bodies).map Body.currentValues = _
  rw [resetBodies_bodies, currentValues_updateForceVectors,
    map_comp_eq _ _ _ currentValues_resetAll]

theorem resetScene_map_isCollided (s : GravityAndOrbitsScene) :
    (s.resetScene).bodies.map Body.isCollided = s.bodies.map fun _ => false := by
  show ((s.resetBodies).bodies).map Body.isCollided = _
  rw [resetBodies_bodies, isCollided_updateForceVectors,
    map_comp_eq _ _ _ isCollided_resetAll]

theorem initials_ofConfigurations (cfgs : List BodyConfiguration) (f : ForceFn)
    (dt period : ℚ) (isPlaying act : Bool) (speed : TimeSpeed) :
    (GravityAndOrbitsScene.ofConfigurations cfgs f dt period isPlaying act speed).bodies.map
        Body.initialValues =
      cfgs.map fun c => (c.mass, c.position, c.velocity) :=
  map_comp_eq _ _ _ (fun _ => rfl) cfgs

end GravityAndOrbitsScene

/-! ## Preservation of construction-time values by every operation -/

theorem initials_setBodyValue (s : GravityAndOrbitsScene) (i : ℕ) (g : Body → Body)
    (hg : ∀ b, (g b).initialValues = b.initialValues) :
    (s.setBodyValue i g).bodies.map Body.initialValues = s.bodies.map Body.initialValues := by
  unfold GravityAndOrbitsScene.setBodyValue
  apply mapIdxFrom_map
  intro j b
  by_cases hj : j = i <;> simp [hj, hg]

theorem initials_stepClock (s : GravityAndOrbitsScene) (ge : Bool) (wallDt : ℚ) :
    (s.stepClock ge wallDt).bodies.map Body.initialValues =
      s.bodies.map Body.initialValues := by
  unfold GravityAndOrbitsScene.stepClock
  split
  · exact initialValues_physicsSubStep _ _ _ _ _
  · rfl

theorem initials_apply (op : SceneOp) (s : GravityAndOrbitsScene) :
    (op.apply s).bodies.map Body.initialValues = s.bodies.map Body.initialValues := by
  cases op with
  | setMass i m => exact initials_setBodyValue s i _ fun b => rfl
  | setPosition i p => exact initials_setBodyValue s i _ fun b => rfl
  | setVelocity i v => exact initials_setBodyValue s i _ fun b => rfl
  | stepClock ge wallDt => exact initials_stepClock s ge wallDt
  | saveState => exact map_comp_eq _ _ _ initialValues_saveBodyState s.bodies
  | rewind =>
    rw [SceneOp.apply, GravityAndOrbitsScene.rewind_bodies, initialValues_updateForceVectors,
      map_comp_eq _ _ _ initialValues_rewindBody]
  | resetScene =>
    show ((s.resetBodies).bodies).map Body.initialValues = _
    rw [GravityAndOrbitsScene.resetBodies_bodies, initialValues_updateForceVectors,
      map_comp_eq _ _ _ initialValues_resetAll]
  | userModifiedVelocity isPlaying =>
    cases isPlaying with
    | false =>
      exact map_comp_eq _ _ _ initialValues_saveBodyState
        ({ s with deviatedFromDefaults := true }).bodies
    | true => rfl

theorem initials_applyOps (ops : List SceneOp) (s : GravityAndOrbitsScene) :
    (applyOps ops s).bodies.map Body.initialValues = s.bodies.map Body.initialValues := by
  induction ops generalizing s with
  | nil => rfl
  | cons op ops ih => rw [applyOps, List.foldl_cons, ← applyOps, ih, initials_apply]

theorem length_bodies_applyOps (ops : List SceneOp) (s : GravityAndOrbitsScene) :
    (applyOps ops s).bodies.length = s.bodies.length := by
  have h := congrArg List.length (initials_applyOps ops s)
  simpa using h

/-! ## The scene-level reset invoked by the global reset -/

namespace GravityAndOrbitsScene

theorem reset_bodies_eq_resetScene (s : GravityAndOrbitsScene) :
    (s.reset).bodies = (s.resetScene).bodies := rfl

theorem reset_map_currentValues (s : GravityAndOrbitsScene) :
    (s.reset).bodies.map Body.currentValues = s.bodies.map Body.initialValues := by
  rw [reset_bodies_eq_resetScene, resetScene_map_currentValues]

end GravityAndOrbitsScene

/-! ## Preservation of rewind points by operations that do not save -/

theorem rewinds_setBodyValue (s : GravityAndOrbitsScene) (i : ℕ) (g : Body → Body)
    (hg : ∀ b, (g b).rewindValues = b.rewindValues) :
    (s.setBodyValue i g).bodies.map Body.rewindValues = s.bodies.map Body.rewindValues := by
  unfold GravityAndOrbitsScene.setBodyValue
  apply mapIdxFrom_map
  intro j b
  by_cases hj : j = i <;> simp [hj, hg]

theorem rewinds_stepClock (s : GravityAndOrbitsScene) (ge : Bool) (wallDt : ℚ) :
    (s.stepClock ge wallDt).bodies.map Body.rewindValues =
      s.bodies.map Body.rewindValues := by
  unfold GravityAndOrbitsScene.stepClock
  split
  · exact rewindValues_physicsSubStep _ _ _ _ _
  · rfl

theorem rewinds_apply (op : SceneOp) (s : GravityAndOrbitsScene)
    (hop : op.movesRewindPoint = false) :
    (op.apply s).bodies.map Body.rewindValues = s.bodies.map Body.rewindValues := by
  cases op with
  | setMass i m => exact rewinds_setBodyValue s i _ fun b => rfl
  | setPosition i p => exact rewinds_setBodyValue s i _ fun b => rfl
  | setVelocity i v => exact rewinds_setBodyValue s i _ fun b => rfl
  | stepClock ge wallDt => exact rewinds_stepClock s ge wallDt
  | saveState => simp [SceneOp.movesRewindPoint] at hop
  | rewind => exact GravityAndOrbitsScene.rewind_map_rewindValues s
  | resetScene => simp [SceneOp.movesRewindPoint] at hop
  | userModifiedVelocity isPlaying =>
    cases isPlaying with
    | false => simp [SceneOp.movesRewindPoint] at hop
    | true => rfl

theorem rewinds_applyOps (ops : List SceneOp) (s : GravityAndOrbitsScene)
    (hops : ∀ op ∈ ops, op.movesRewindPoint = false) :
    (applyOps ops s).bodies.map Body.rewindValues = s.bodies.map Body.rewindValues := by
  induction ops generalizing s with
  | nil => rfl
  | cons op ops ih =>
    rw [applyOps, List.foldl_cons, ← applyOps,
      ih _ fun o ho => hops o (List.mem_cons_of_mem op ho),
      rewinds_apply op s (hops op (List.mem_cons_self op ops))]

/-! ## Idempotence of the rewind operation -/

theorem RewindableProperty.rewind_eq_self {α : Type} (p : RewindableProperty α)
    (h : p.value = p.rewindValue) : p.rewind = p := by
  cases p
  rw [RewindableProperty.rewind]
  simp only at h
  rw [h]

theorem Body.rewindBody_eq_self (b : Body) (h : b.currentValues = b.rewindValues) :
    b.rewindBody = b := by
  have h1 := congrArg (fun q : ℚ × Vector2 × Vector2 => q.1) h
  have h2 := congrArg (fun q : ℚ × Vector2 × Vector2 => q.2.1) h
  have h3 := congrArg (fun q : ℚ × Vector2 × Vector2 => q.2.2) h
  simp only [Body.currentValues, Body.rewindValues] at h1 h2 h3
  rw [Body.rewindBody, RewindableProperty.rewind_eq_self _ h1,
    RewindableProperty.rewind_eq_self _ h2, RewindableProperty.rewind_eq_self _ h3]

theorem map_rewindBody_eq_self (l : List Body)
    (h : l.map Body.currentValues = l.map Body.rewindValues) :
    l.map Body.rewindBody = l := by
  induction l with
  | nil => rfl
  | cons b l ih =>
    simp only [List.map_cons, List.cons.injEq] at h
    rw [List.map_cons, Body.rewindBody_eq_self b h.1, ih h.2]

theorem updateForceVectors_idem (f : ForceFn) (l : List Body) :
    updateForceVectors f (updateForceVectors f l) = updateForceVectors f l := by
  unfold updateForceVectors
  rw [mapIdxFrom_comp]
  apply mapIdxFrom_congr
  intro i b
  have hg :
      (mapIdxFrom
          (fun i b =>
            { b with
              forceProperty := netForceData f (l.map Body.gravityData) i b.gravityData })
          0 l).map Body.gravityData = l.map Body.gravityData := by
    apply mapIdxFrom_map
    intro j a
    rfl
  rw [hg]
  rfl

theorem GravityAndOrbitsScene.rewind_rewind (s : GravityAndOrbitsScene) :
    s.rewind.rewind = s.rewind := by
  have hb : (s.rewind).bodies.map Body.rewindBody = (s.rewind).bodies :=
    map_rewindBody_eq_self _
      (by rw [GravityAndOrbitsScene.rewind_map_currentValues,
        GravityAndOrbitsScene.rewind_map_rewindValues])
  have hbodies : s.rewind.rewind.bodies = s.rewind.bodies := by
    rw [GravityAndOrbitsScene.rewind_bodies s.rewind, hb,
      GravityAndOrbitsScene.rewind_bodies s]
    exact updateForceVectors_idem s.gravityForce _
  apply GravityAndOrbitsScene.ext <;> first | exact hbodies | rfl

/-! ## Explosion counters through the clock tick -/

theorem counters_stepClock (s : GravityAndOrbitsScene) (ge : Bool) (wallDt : ℚ) :
    (s.stepClock ge wallDt).bodies.map Body.clockTicksSinceExplosion =
      s.bodies.map Body.clockTicksSinceExplosion := by
  unfold GravityAndOrbitsScene.stepClock
  split
  · exact clockTicks_physicsSubStep _ _ _ _ _
  · rfl

/-! ## Claim theorems -/

/-- C1: for every scene, `rewind()` first raises the `rewinding` flag,
resets the scene's simulation time to 0, restores every body's rewindable
quantities to their last-saved rewind point (leaving the rewind points,
paths and explosion counters untouched — no time integration), recomputes
the gravitational force vectors from the restored bodies, and finally
clears the `rewinding` flag. -/
theorem claim1_rewind_behavior (s : GravityAndOrbitsScene) :
    (s.rewindStart).rewinding = true ∧
    (s.rewind).rewinding = false ∧
    (s.rewind).clock.simulationTime = 0 ∧
    (s.rewind).bodies.map Body.currentValues = s.bodies.map Body.rewindValues ∧
    (s.rewind).bodies.map Body.rewindValues = s.bodies.map Body.rewindValues ∧
    (s.rewind).bodies.map Body.path = s.bodies.map Body.path ∧
    (s.rewind).bodies.map Body.clockTicksSinceExplosion =
      s.bodies.map Body.clockTicksSinceExplosion ∧
    (s.rewind).bodies.map Body.forceProperty =
      (updateForceVectors s.gravityForce (s.bodies.map Body.rewindBody)).map
        Body.forceProperty :=
  ⟨rfl, rfl, rfl, s.rewind_map_currentValues, s.rewind_map_rewindValues, s.rewind_map_path,
    s.rewind_map_clockTicks, rfl⟩

/-- C2: after any finite sequence of mutations and steps, `resetScene()`
restores every body's rewindable values (mass, position, velocity) to
exactly the values present at scene construction, clears every body's
collided flag, zeroes the simulation time and clears the
`deviatedFromDefaults` flag. -/
theorem claim2_resetScene_deterministic (cfgs : List BodyConfiguration) (f : ForceFn)
    (dt period : ℚ) (isPlaying act : Bool) (speed : TimeSpeed) (ops : List SceneOp) :
    ((applyOps ops
          (GravityAndOrbitsScene.ofConfigurations cfgs f dt period isPlaying act
            speed)).resetScene).bodies.map Body.currentValues =
      (cfgs.map fun c => (c.mass, c.position, c.velocity)) ∧
    ((applyOps ops
          (GravityAndOrbitsScene.ofConfigurations cfgs f dt period isPlaying act
            speed)).resetScene).bodies.map Body.isCollided =
      List.replicate cfgs.length false ∧
    ((applyOps ops
          (GravityAndOrbitsScene.ofConfigurations cfgs f dt period isPlaying act
            speed)).resetScene).clock.simulationTime = 0 ∧
    ((applyOps ops
          (GravityAndOrbitsScene.ofConfigurations cfgs f dt period isPlaying act
            speed)).resetScene).deviatedFromDefaults = false := by
  refine ⟨?_, ?_, rfl, rfl⟩
  · rw [GravityAndOrbitsScene.resetScene_map_currentValues, initials_applyOps,
      GravityAndOrbitsScene.initials_ofConfigurations]
  · rw [GravityAndOrbitsScene.resetScene_map_isCollided]
    have hlen :
        (applyOps ops
            (GravityAndOrbitsScene.ofConfigurations cfgs f dt period isPlaying act
              speed)).bodies.length = cfgs.length := by
      rw [length_bodies_applyOps]
      exact List.length_map _ _
    rw [List.map_const', hlen]

/-- C3: when the user-modified-velocity notification fires while the
simulation is paused, the scene marks itself as deviated from defaults and
immediately anchors the current value of every body's rewindable
quantities as the new rewind point (without changing the current values),
so a subsequent `rewind()` restores exactly those values. -/
theorem claim3_velocity_listener_saves_when_paused (s : GravityAndOrbitsScene) :
    (s.onUserModifiedVelocity false).deviatedFromDefaults = true ∧
    (s.onUserModifiedVelocity false).bodies.map Body.rewindValues =
      s.bodies.map Body.currentValues ∧
    (s.onUserModifiedVelocity false).bodies.map Body.currentValues =
      s.bodies.map Body.currentValues ∧
    ((s.onUserModifiedVelocity false).rewind).bodies.map Body.currentValues =
      s.bodies.map Body.currentValues := by
  refine ⟨rfl, ?_, ?_, ?_⟩
  · exact GravityAndOrbitsScene.saveState_map_rewindValues { s with deviatedFromDefaults := true }
  · exact GravityAndOrbitsScene.saveState_map_currentValues { s with deviatedFromDefaults := true }
  · rw [GravityAndOrbitsScene.rewind_map_currentValues]
    exact GravityAndOrbitsScene.saveState_map_rewindValues { s with deviatedFromDefaults := true }

/-- C5: `saveState` is invoked by the velocity-listener only under the
guard that the simulation is paused: whenever the listener reports a save,
`isPlaying` was `false`, and with `isPlaying = true` the listener performs
no save. -/
theorem claim5_saveState_only_when_paused (s : GravityAndOrbitsScene) (isPlaying : Bool)
    (h : (s.userModifiedVelocityListener isPlaying).2 = true) :
    isPlaying = false ∧ (s.userModifiedVelocityListener true).2 = false := by
  refine ⟨?_, rfl⟩
  cases isPlaying with
  | false => rfl
  | true => simp [GravityAndOrbitsScene.userModifiedVelocityListener] at h

/-- C6: after `saveState` followed by any sequence of mutations and steps
that do not move the rewind point, one `rewind()` restores exactly the
body state present at save time, and a second `rewind()` without an
intervening save produces a scene identical to the one after the first
`rewind()`. -/
theorem claim6_rewind_idempotent (s : GravityAndOrbitsScene) (ops : List SceneOp)
    (hops : ∀ op ∈ ops, op.movesRewindPoint = false) :
    ((applyOps ops s.saveState).rewind).bodies.map Body.currentValues =
      (s.saveState).bodies.map Body.currentValues ∧
    ((applyOps ops s.saveState).rewind).rewind = (applyOps ops s.saveState).rewind := by
  constructor
  · rw [GravityAndOrbitsScene.rewind_map_currentValues, rewinds_applyOps _ _ hops,
      GravityAndOrbitsScene.saveState_map_rewindValues,
      GravityAndOrbitsScene.saveState_map_currentValues]
  · exact GravityAndOrbitsScene.rewind_rewind _

/-- C6 witness: the concrete mutation sequence moves no rewind point, and
the theorem applies at the concrete scene. -/
theorem claim6_witness :
    (∀ op ∈ demoOps, op.movesRewindPoint = false) ∧
    (((applyOps demoOps demoScene.saveState).rewind).bodies.map Body.currentValues =
        (demoScene.saveState).bodies.map Body.currentValues ∧
      ((applyOps demoOps demoScene.saveState).rewind).rewind =
        (applyOps demoOps demoScene.saveState).rewind) :=
  ⟨by decide, claim6_rewind_idempotent demoScene demoOps (by decide)⟩

/-- C7: the global reset restores every display toggle, gravity-enabled,
the play state and the time speed to their initial values, restores the
scene selection, and performs the scene reset on every scene: every
scene's zoom level returns to 1, its bodies end in exactly the state
`resetScene()` produces — all rewindable values back at the
construction-time values — its simulation time is zeroed, and its
`deviatedFromDefaults` flag is cleared. -/
theorem claim7_global_reset (m : GravityAndOrbitsModel) :
    (m.reset).showGravityForce = false ∧
    (m.reset).showVelocity = false ∧
    (m.reset).showPath = false ∧
    (m.reset).showGrid = false ∧
    (m.reset).showMass = false ∧
    (m.reset).showMeasuringTape = false ∧
    (m.reset).gravityEnabled = true ∧
    (m.reset).isPlaying = false ∧
    (m.reset).timeSpeed = TimeSpeed.normal ∧
    (m.reset).selectedSceneIndex = 0 ∧
    (m.reset).scenes.map (fun s => s.zoomLevel) = m.scenes.map (fun _ => (1 : ℚ)) ∧
    (m.reset).scenes.map (fun s => s.bodies) = m.scenes.map (fun s => (s.resetScene).bodies) ∧
    (m.reset).scenes.map (fun s => s.bodies.map Body.currentValues) =
      m.scenes.map (fun s => s.bodies.map Body.initialValues) ∧
    (m.reset).scenes.map (fun s => s.clock.simulationTime) = m.scenes.map (fun _ => (0 : ℚ)) ∧
    (m.reset).scenes.map (fun s => s.deviatedFromDefaults) = m.scenes.map (fun _ => false) := by
  refine ⟨rfl, rfl, rfl, rfl, rfl, rfl, rfl, rfl, rfl, rfl, ?_, ?_, ?_, ?_, ?_⟩
  · exact map_comp_eq _ _ _ (fun s => rfl) m.scenes
  · exact map_comp_eq _ _ _ GravityAndOrbitsScene.reset_bodies_eq_resetScene m.scenes
  · exact map_comp_eq GravityAndOrbitsScene.reset
      (fun s => s.bodies.map Body.currentValues) (fun s => s.bodies.map Body.initialValues)
      GravityAndOrbitsScene.reset_map_currentValues m.scenes
  · exact map_comp_eq _ _ _ (fun s => rfl) m.scenes
  · exact map_comp_eq _ _ _ (fun s => rfl) m.scenes

/-- C4: under the invariant maintained by the constructor's multilink —
each scene's clock runs exactly when the play button is pressed and the
scene is active — and with the active flags tracking the selection, a
top-level tick leaves every non-selected scene completely unchanged, every
inactive scene's clock is stopped, stepping a stopped clock changes
nothing (so no body of an inactive scene ever changes), and when the
simulation is paused no scene's clock is stepped at all. -/
theorem claim4_scene_isolation (m : GravityAndOrbitsModel) (dt : ℚ)
    (hact : ∀ p ∈ m.scenes.enum, p.2.active = decide (p.1 = m.selectedSceneIndex))
    (hrun : ∀ p ∈ m.scenes.enum, p.2.clock.running = (m.isPlaying && p.2.active)) :
    (∀ i : ℕ, i ≠ m.selectedSceneIndex → (m.step dt).scenes[i]? = m.scenes[i]?) ∧
    (∀ p ∈ m.scenes.enum, p.1 ≠ m.selectedSceneIndex → p.2.clock.running = false) ∧
    (∀ (s : GravityAndOrbitsScene) (ge : Bool) (wallDt : ℚ),
        s.clock.running = false → s.stepClock ge wallDt = s) ∧
    (m.isPlaying = false →
      (m.step dt).scenes.map (fun s => s.clock) = m.scenes.map (fun s => s.clock)) := by
  refine ⟨?_, ?_, ?_, ?_⟩
  · intro i hi
    unfold GravityAndOrbitsModel.step
    rw [mapIdxFrom_getElem?]
    cases m.scenes[i]? with
    | none => rfl
    | some s => simp [Nat.zero_add, hi]
  · intro p hp hne
    rw [hrun p hp, hact p hp]
    simp [hne]
  · intro s ge wallDt hstopped
    unfold GravityAndOrbitsScene.stepClock
    rw [hstopped]
    simp
  · intro hpause
    unfold GravityAndOrbitsModel.step
    apply mapIdxFrom_map
    intro i s
    by_cases hi : i = m.selectedSceneIndex <;> simp [hi, hpause]

/-- C4 witness: the concrete two-scene model satisfies the multilink
invariant, so the isolation conclusions hold there. -/
theorem claim4_witness :
    (∀ p ∈ demoModel.scenes.enum, p.2.active = decide (p.1 = demoModel.selectedSceneIndex)) ∧
    (∀ p ∈ demoModel.scenes.enum, p.2.clock.running = (demoModel.isPlaying && p.2.active)) ∧
    ((∀ i : ℕ, i ≠ demoModel.selectedSceneIndex →
        (demoModel.step 2).scenes[i]? = demoModel.scenes[i]?) ∧
      (∀ p ∈ demoModel.scenes.enum,
          p.1 ≠ demoModel.selectedSceneIndex → p.2.clock.running = false) ∧
      (∀ (s : GravityAndOrbitsScene) (ge : Bool) (wallDt : ℚ),
          s.clock.running = false → s.stepClock ge wallDt = s) ∧
      (demoModel.isPlaying = false →
        (demoModel.step 2).scenes.map (fun s => s.clock) =
          demoModel.scenes.map (fun s => s.clock))) :=
  ⟨by decide, by decide, claim4_scene_isolation demoModel 2 (by decide) (by decide)⟩

/-- C8: the capacity of a body's trajectory path is
`ceil(1.5 · defaultOrbitalPeriod / dt)`, and appending a position to a
non-collided body whose path is exactly at capacity evicts the oldest
entry first, keeping the length constant. -/
theorem claim8_path_capacity (s : GravityAndOrbitsScene) (b : Body)
    (hb : b.isCollided = false) (hpos : 0 < b.path.length)
    (hlen : (b.path.length : ℤ) = s.getMaxPathLength) :
    s.getMaxPathLength = Int.ceil ((3 / 2 : ℚ) * s.defaultOrbitalPeriod / s.dt) ∧
    (b.addPathPoint s.getMaxPathLength).path =
      b.path.tail ++ [b.positionProperty.value] ∧
    (b.addPathPoint s.getMaxPathLength).path.length = b.path.length := by
  have hdrop : (b.addPathPoint s.getMaxPathLength).path =
      b.path.tail ++ [b.positionProperty.value] := by
    unfold Body.addPathPoint
    have hcond : s.getMaxPathLength <
        (((b.path ++ [b.positionProperty.value]).length : ℕ) : ℤ) := by
      rw [List.length_append, List.length_singleton]
      omega
    simp only [hb, Bool.false_eq_true, if_false, hcond, if_true, if_pos hcond]
    rw [List.drop_append_of_le_length (by omega), List.drop_one]
  refine ⟨rfl, hdrop, ?_⟩
  rw [hdrop, List.length_append, List.length_singleton, List.length_tail]
  omega

/-- C8 witness: the concrete scene's capacity is 2 and the concrete body's
path holds exactly 2 points, so appending evicts the oldest point. -/
theorem claim8_witness :
    demoFullBody.isCollided = false ∧ 0 < demoFullBody.path.length ∧
    ((demoFullBody.path.length : ℤ) = demoPathScene.getMaxPathLength) ∧
    (demoPathScene.getMaxPathLength =
        Int.ceil ((3 / 2 : ℚ) * demoPathScene.defaultOrbitalPeriod / demoPathScene.dt) ∧
      (demoFullBody.addPathPoint demoPathScene.getMaxPathLength).path =
        demoFullBody.path.tail ++ [demoFullBody.positionProperty.value] ∧
      (demoFullBody.addPathPoint demoPathScene.getMaxPathLength).path.length =
        demoFullBody.path.length) := by
  have hlen : ((demoFullBody.path.length : ℕ) : ℤ) = demoPathScene.getMaxPathLength := by
    unfold demoFullBody demoPathScene GravityAndOrbitsScene.getMaxPathLength
      GravityAndOrbitsScene.ofConfigurations
    norm_num
  exact ⟨rfl, by decide, hlen,
    claim8_path_capacity demoPathScene demoFullBody rfl (by decide) hlen⟩

/-- C9: the wall-clock delta forwarded by `GravityAndOrbitsModel.step` is
`min(dt, 1)` — stepping with any `dt` is the same as stepping with the
clamped delta, and any `dt ≥ 1` behaves exactly like `dt = 1`. -/
theorem claim9_dt_clamped (m : GravityAndOrbitsModel) (dt : ℚ) :
    m.step dt = m.step (min 1 dt) ∧ (1 ≤ dt → m.step dt = m.step 1) := by
  have h1 : m.step dt = m.step (min 1 dt) := by
    unfold GravityAndOrbitsModel.step
    rw [min_eq_right (min_le_left (1 : ℚ) dt)]
  exact ⟨h1, fun h => by rw [h1, min_eq_left h]⟩

/-- C9 witness: at the concrete model with frame gap 2 the clamp applies. -/
theorem claim9_witness :
    ((1 : ℚ) ≤ 2) ∧
    (demoModel.step 2 = demoModel.step (min 1 2) ∧
      ((1 : ℚ) ≤ 2 → demoModel.step 2 = demoModel.step 1)) :=
  ⟨by norm_num, claim9_dt_clamped demoModel 2⟩

/-- C10: on every top-level model step the explosion counter of every
collided body of the selected scene advances by exactly one — whether or
not the simulation is playing — while every non-collided body's counter is
unchanged. -/
theorem claim10_explosion_counters (m : GravityAndOrbitsModel) (dt : ℚ) :
    ((m.step dt).scenes[m.selectedSceneIndex]?).map
        (fun s => s.bodies.map Body.clockTicksSinceExplosion) =
      (m.scenes[m.selectedSceneIndex]?).map
        (fun s => s.bodies.map fun b =>
          if b.isCollided then b.clockTicksSinceExplosion + 1
          else b.clockTicksSinceExplosion) := by
  unfold GravityAndOrbitsModel.step
  rw [mapIdxFrom_getElem?]
  cases h : m.scenes[m.selectedSceneIndex]? with
  | none => rfl
  | some s =>
    simp only [Option.map_some', Nat.zero_add, if_pos rfl, if_true]
    congr 1
    have hinc : (s.bodies.map fun b =>
        if b.isCollided then
          { b with clockTicksSinceExplosion := b.clockTicksSinceExplosion + 1 }
        else b).map Body.clockTicksSinceExplosion =
        s.bodies.map fun b =>
          if b.isCollided then b.clockTicksSinceExplosion + 1
          else b.clockTicksSinceExplosion := by
      apply map_comp_eq
      intro b
      by_cases hb : b.isCollided <;> simp [hb]
    by_cases hp : m.isPlaying = true
    · rw [if_pos hp, counters_stepClock]
      exact hinc
    · rw [if_neg hp]
      exact hinc

/-- C5 witness: at the concrete paused scene the listener does save, and
the theorem applies. -/
theorem claim5_witness :
    (demoScene.userModifiedVelocityListener false).2 = true ∧
    ((false : Bool) = false ∧ (demoScene.userModifiedVelocityListener true).2 = false) :=
  ⟨rfl, claim5_saveState_only_when_paused demoScene false rfl⟩

end GravityAndOrbits
